import Mathlib

set_option autoImplicit false

namespace GenRes

/-! Shallow embedding of src/generateResources.py.

The script assembles JSON-like records in memory, strips null entries with
del_none, and writes each record to a path derived from the naming parts.
We embed the value language (JVal), the dict operations the script relies
on (insertion-ordered association lists, as Python 3.7+ dicts), the three
emission functions (blockstate, model, item, plus the cube_all wrapper),
the full module-level driver as an ordered list of emission calls, and the
module prelude (backup dir creation, archive, chdir) as an event trace.
A separate heap-based model of del_none captures its in-place mutation. -/

/-- JSON-like values as assembled by generateResources.py before json.dump.
Python None is null, strings are str, ints are num, floats are flt
(exact rationals: the only float in the source is -3/16), dicts are obj
(insertion-ordered association lists, as in Python 3.7+), lists are arr. -/
inductive JVal where
  | null : JVal
  | str : String → JVal
  | num : Int → JVal
  | flt : Rat → JVal
  | obj : List (String × JVal) → JVal
  | arr : List JVal → JVal

/-- First value bound to key k in an association list (Python dict lookup). -/
def getKey {α : Type} (k : String) : List (String × α) → Option α
  | [] => none
  | (k', v) :: rest => if k' = k then some v else getKey k rest

/-- Python dict item assignment d[k] = v: replace in place if the key is
present, else append at the end (insertion order). -/
def dictSet {α : Type} (d : List (String × α)) (k : String) (v : α) : List (String × α) :=
  if d.any (fun kv => kv.1 = k) then
    d.map (fun kv => if kv.1 = k then (k, v) else kv)
  else d ++ [(k, v)]

/-- Python dict.update(u): assign every pair of u into d, in order of u. -/
def dictUpdate {α : Type} (d u : List (String × α)) : List (String × α) :=
  u.foldl (fun acc kv => dictSet acc kv.1 kv.2) d

/-- del_none from generateResources.py: iterate over the items of a dict,
delete every key whose value is None, and recurse into dict values.
List values are returned untouched (the source only recurses when
isinstance(value, dict)). -/
def del_none : List (String × JVal) → List (String × JVal)
  | [] => []
  | (k, v) :: rest =>
    match v with
    | .null => del_none rest
    | .obj fs => (k, .obj (del_none fs)) :: del_none rest
    | v => (k, v) :: del_none rest

/-- Effect of del_none on a single retained value: dict values are pruned
recursively, anything else is unchanged. -/
def delNoneVal : JVal → JVal
  | .obj fs => .obj (del_none fs)
  | v => v

/-- Keys of an association list, in order. -/
def keys {α : Type} (l : List (String × α)) : List String := l.map Prod.fst

/-- Python dict invariant: each key occurs at most once. -/
def NodupKeys {α : Type} (l : List (String × α)) : Prop := (keys l).Nodup

instance {α : Type} (l : List (String × α)) : Decidable (NodupKeys l) := by
  unfold NodupKeys; infer_instance

mutual

/-- True when the value contains no Python list anywhere (the tree is made
of dicts and scalars only). -/
def arrFreeV : JVal → Bool
  | .arr _ => false
  | .obj fs => arrFreeF fs
  | _ => true

/-- arrFreeV lifted to the fields of a dict. -/
def arrFreeF : List (String × JVal) → Bool
  | [] => true
  | (_, v) :: rest => arrFreeV v && arrFreeF rest

end

mutual

/-- True when the value contains no null anywhere in its tree. -/
def noNullV : JVal → Bool
  | .null => false
  | .obj fs => noNullF fs
  | .arr xs => noNullL xs
  | _ => true

/-- noNullV lifted to the fields of a dict. -/
def noNullF : List (String × JVal) → Bool
  | [] => true
  | (_, v) :: rest => noNullV v && noNullF rest

/-- noNullV lifted to the elements of a list. -/
def noNullL : List JVal → Bool
  | [] => true
  | v :: rest => noNullV v && noNullL rest

end

/-- A value that is neither None nor a dict (left untouched by del_none). -/
def flatVal : JVal → Bool
  | .null => false
  | .obj _ => false
  | _ => true

/-- A texture-mapping key in a blockstate call: a plain slot name or a
tuple of slot names sharing one value. -/
inductive TexKey where
  | single : String → TexKey
  | group : List String → TexKey
deriving DecidableEq

/-- One step of the tuple-key unpacking loop of blockstate: a string key is
one assignment, a tuple key is one assignment per slot in it. -/
def texStep (acc : List (String × String)) (kv : TexKey × String) : List (String × String) :=
  match kv.1 with
  | .single k => dictSet acc k kv.2
  | .group ks => ks.foldl (fun a x => dictSet a x kv.2) acc

/-- The tuple-key unpacking loop of blockstate: build _textures by assigning
each slot of each key in order (dict item assignment). -/
def expandTextures (textures : List (TexKey × String)) : List (String × String) :=
  textures.foldl texStep []

/-- Reference expansion of one texture entry: a string key gives one pair,
a tuple key gives one pair per slot. -/
def expandOne : TexKey × String → List (String × String)
  | (.single k, v) => [(k, v)]
  | (.group ks, v) => ks.map (fun x => (x, v))

/-- os.path.join with forward slashes. -/
def joinPath (parts : List String) : String := String.intercalate "/" parts

/-- The _variants computation at the top of blockstate: the default table
maps normal to a one-element list holding an empty dict; a truthy
(non-empty) variants argument is merged over it with dict.update. -/
def blockVariants (variants : Option (List (String × JVal))) : List (String × JVal) :=
  match variants with
  | none => [("normal", .arr [.obj []])]
  | some vs =>
      if vs.isEmpty then [("normal", .arr [.obj []])]
      else dictUpdate [("normal", .arr [.obj []])] vs

/-- The blockstate function of generateResources.py, returning the output
path and the JSON value handed to json.dump. -/
def blockstate (filename_parts : List String) (model : Option String)
    (textures : List (TexKey × String)) (variants : Option (List (String × JVal))) :
    String × JVal :=
  let _variants : List (String × JVal) := blockVariants variants
  let _textures := expandTextures textures
  let modelVal : JVal := match model with | none => .null | some s => .str s
  (joinPath ("blockstates" :: filename_parts) ++ ".json",
   .obj (del_none [
     ("__comment", .str "Generated by generateResources.py function: blockstate"),
     ("forge_marker", .num 1),
     ("defaults", .obj [
       ("model", modelVal),
       ("textures", .obj (_textures.map (fun kv => (kv.1, JVal.str kv.2))))]),
     ("variants", .obj _variants)]))

/-- cube_all from the source: a blockstate whose texture dict maps the
slot all to one texture. In the source variants defaults to None and
model defaults to cube_all; call sites here pass them explicitly. -/
def cube_all (filename_parts : List String) (texture : String)
    (variants : Option (List (String × JVal))) (model : String) : String × JVal :=
  blockstate filename_parts (some model) [(.single "all", texture)] variants

/-- The model function of the source: path under models plus the pruned
record with comment, parent and textures (None when absent). -/
def model (filename_parts : List String) (parent : String)
    (textures : Option (List (String × JVal))) : String × JVal :=
  (joinPath ("models" :: filename_parts) ++ ".json",
   .obj (del_none [
     ("__comment", .str "Generated by generateResources.py function: model"),
     ("parent", .str parent),
     ("textures", match textures with | none => .null | some ts => .obj ts)]))

/-- The dict comprehension of the item function: layer%d keys in positional
order of the supplied layers. -/
def layerEntries (layers : List String) : List (String × JVal) :=
  layers.enum.map (fun iv => ("layer" ++ toString iv.1, JVal.str iv.2))

/-- The item function of the source: a model under the fixed extra segment
item, with no textures dict when no layers are given. In the source parent
defaults to item/generated; call sites here pass it explicitly. -/
def item (filename_parts : List String) (layers : List String) (parent : String) :
    String × JVal :=
  model ("item" :: filename_parts) parent
    (if layers.isEmpty then none else some (layerEntries layers))

/-- Root fields of an emitted descriptor (every emitted value is an obj). -/
def rootFields (w : String × JVal) : List (String × JVal) :=
  match w.2 with | .obj fs => fs | _ => []

/-- The variants object of an emitted blockstate descriptor. -/
def variantFields (w : String × JVal) : Option (List (String × JVal)) :=
  match getKey "variants" (rootFields w) with
  | some (.obj fs) => some fs
  | _ => none

/-! Heap model of del_none. The pure del_none above gives the value of the
result; the Python function additionally mutates the dict objects it was
given and returns the very same top-level object. We model dict objects as
heap addresses, dict contents as the heap, and the recursion with explicit
fuel (Python itself overflows the stack on cyclic inputs; on the acyclic
dicts of this script any fuel at least the nesting depth is enough). -/

/-- Heap values: like JVal but a dict value is an address into the heap. -/
inductive HVal where
  | null : HVal
  | str : String → HVal
  | intv : Int → HVal
  | ref : Nat → HVal
  | list : List HVal → HVal

/-- A heap of dict objects: contents of the dict at each address. -/
def Heap : Type := Nat → List (String × HVal)

/-- Python del d[key] on the dict object at address a. -/
def heapDel (h : Heap) (a : Nat) (k : String) : Heap :=
  fun b => if b = a then (h a).filter (fun kv => kv.1 != k) else h b

/-- The loop body of del_none over a snapshot of the items of the dict at
address a: delete None-valued keys as encountered, recurse (with the given
recursion function) into dict values as encountered. -/
def delNoneGo (recurse : Heap → Nat → Heap) (a : Nat) :
    Heap → List (String × HVal) → Heap
  | h, [] => h
  | h, (k, .null) :: rest => delNoneGo recurse a (heapDel h a k) rest
  | h, (_, .ref b) :: rest => delNoneGo recurse a (recurse h b) rest
  | h, (_, _) :: rest => delNoneGo recurse a h rest

/-- del_none against the heap: snapshot list(d.items()) of the dict at a,
then run the loop body. Fuel bounds the recursion depth. -/
def del_none_heap : Nat → Heap → Nat → Heap
  | 0, h, _ => h
  | fuel + 1, h, a => delNoneGo (del_none_heap fuel) a h (h a)

/-- The full del_none call on the object at address a: the mutated heap
together with the returned reference, which is the argument itself
(the source ends with return d). -/
def del_none_ref (fuel : Nat) (h : Heap) (a : Nat) : Heap × Nat :=
  (del_none_heap fuel h a, a)

/-- A small concrete heap in the shape of the variant tables of the driver
(dict values, a list value holding a dict reference, null entries at the
top level, behind a dict value, behind a list element and inside a list). -/
def exampleHeap : Heap := fun a =>
  if a = 0 then
    [("gone", .null), ("inventory", .list [.ref 1, .null]), ("nested", .ref 2)]
  else if a = 1 then [("model", .str "button_inventory"), ("dead", .null)]
  else if a = 2 then [("keep", .intv 90), ("dead", .null)]
  else []

/-! The enumeration tables of the script, in source order. -/

def ROCK_TYPES : List String :=
  ["granite", "diorite", "gabbro", "shale", "claystone", "rocksalt", "limestone",
   "conglomerate", "dolomite", "chert", "chalk", "rhyolite", "basalt", "andesite",
   "dacite", "quartzite", "slate", "phyllite", "schist", "gneiss", "marble"]

def ROCK_CATEGORIES : List String :=
  ["sedimentary", "metamorphic", "igneous_intrusive", "igneous_extrusive"]

def FULLBLOCK_TYPES : List String :=
  ["raw", "smooth", "cobble", "bricks", "sand", "gravel", "dirt", "clay"]

def GRASS_TYPES : List String := ["grass", "dry_grass"]

def ORE_TYPES : List (String × Bool) :=
  [("native_copper", true), ("native_gold", true), ("native_platinum", true),
   ("hematite", true), ("native_silver", true), ("cassiterite", true),
   ("galena", true), ("bismuthinite", true), ("garnierite", true),
   ("malachite", true), ("magnetite", true), ("limonite", true),
   ("sphalerite", true), ("tetrahedrite", true), ("bituminous_coal", false),
   ("lignite", false), ("kaolinite", false), ("gypsum", false),
   ("satinspar", false), ("selenite", false), ("graphite", false),
   ("kimberlite", false), ("petrified_wood", false), ("sulfur", false),
   ("jet", false), ("microcline", false), ("pitchblende", false),
   ("cinnabar", false), ("cryolite", false), ("saltpeter", false),
   ("serpentine", false), ("sylvite", false), ("borax", false),
   ("olivine", false), ("lapis_lazuli", false)]

def POWDERS : List String :=
  ["flux", "coke", "kaolinite_powder", "graphite_powder", "sulfur_powder",
   "saltpeter_powder", "hematite_powder", "lapis_lazuli_powder", "limonite_powder",
   "malachite_powder", "salt", "fertilizer"]

def WOOD_TYPES : List String :=
  ["ash", "aspen", "birch", "chestnut", "douglas_fir", "hickory", "maple", "oak",
   "pine", "sequoia", "spruce", "sycamore", "white_cedar", "willow", "kapok",
   "acacia", "rosewood", "blackwood", "palm"]

def GEM_TYPES : List String :=
  ["agate", "amethyst", "beryl", "diamond", "emerald", "garnet", "jade", "jasper",
   "opal", "ruby", "sapphire", "topaz", "tourmaline"]

def GEM_GRADES : List String := ["normal", "flawed", "flawless", "chipped", "exquisite"]

def METAL_TYPES : List (String × Bool) :=
  [("bismuth", false), ("bismuth_bronze", true), ("black_bronze", true),
   ("brass", false), ("bronze", true), ("copper", true), ("gold", false),
   ("lead", false), ("nickel", false), ("rose_gold", false), ("silver", false),
   ("tin", false), ("zinc", false), ("sterling_silver", false),
   ("wrought_iron", true), ("pig_iron", false), ("steel", true),
   ("platinum", false), ("black_steel", true), ("blue_steel", true),
   ("red_steel", true)]

def METAL_ITEMS : List (String × Bool) :=
  [("ingot", false), ("double_ingot", false), ("scrap", false), ("dust", false),
   ("nugget", false), ("sheet", false), ("double_sheet", false), ("anvil", true),
   ("tuyere", true), ("lamp", false), ("pick", true), ("pick_head", true),
   ("shovel", true), ("shovel_head", true), ("axe", true), ("axe_head", true),
   ("hoe", true), ("hoe_head", true), ("chisel", true), ("chisel_head", true),
   ("sword", true), ("sword_blade", true), ("mace", true), ("mace_head", true),
   ("saw", true), ("saw_blade", true), ("javelin", true), ("javelin_head", true),
   ("hammer", true), ("hammer_head", true), ("propick", true), ("propick_head", true),
   ("knife", true), ("knife_blade", true), ("scythe", true), ("scythe_blade", true),
   ("unfinished_chestplate", true), ("chestplate", true), ("unfinished_greaves", true),
   ("greaves", true), ("unfinished_boots", true), ("boots", true),
   ("unfinished_helmet", true), ("helmet", true)]

/-- STEEL is a Python set literal; this list fixes its display order. The
iteration order of a string set is not guaranteed across processes, which
is why the run below is parametrised by an arbitrary permutation of it. -/
def STEEL : List String := ["steel", "blue_steel", "red_steel", "black_steel"]

def TOOLS : List String :=
  ["pick", "propick", "shovel", "axe", "hoe", "chisel", "sword", "mace", "saw",
   "javelin", "hammer", "knife", "scythe"]

def FLUIDS : List (String × String) :=
  [("salt_water", "salt_water"), ("fresh_water", "fresh_water"),
   ("hot_water", "hot_water"), ("finite_salt_water", "salt_water"),
   ("finite_fresh_water", "fresh_water"), ("finite_hot_water", "hot_water"),
   ("rum", "rum"), ("beer", "beer"), ("whiskey", "whiskey"),
   ("rye_whiskey", "rye_whiskey"), ("corn_whiskey", "corn_whiskey"),
   ("sake", "sake"), ("vodka", "vodka"), ("cider", "cider"),
   ("vinegar", "vinegar"), ("brine", "brine"), ("milk", "milk"),
   ("olive_oil", "olive_oil"), ("tannin", "tannin"), ("limewater", "limewater"),
   ("milk_curdled", "milk_curdled"), ("milk_vinegar", "milk_vinegar")]

/-! The hand-authored variant override tables. -/

def DOOR_VARIANTS : List (String × JVal) :=
  [("normal", .null),
   ("facing=east,half=lower,hinge=left,open=false", .obj [("model", .str "door_bottom")]),
   ("facing=south,half=lower,hinge=left,open=false", .obj [("model", .str "door_bottom"), ("y", .num 90)]),
   ("facing=west,half=lower,hinge=left,open=false", .obj [("model", .str "door_bottom"), ("y", .num 180)]),
   ("facing=north,half=lower,hinge=left,open=false", .obj [("model", .str "door_bottom"), ("y", .num 270)]),
   ("facing=east,half=lower,hinge=right,open=false", .obj [("model", .str "door_bottom_rh")]),
   ("facing=south,half=lower,hinge=right,open=false", .obj [("model", .str "door_bottom_rh"), ("y", .num 90)]),
   ("facing=west,half=lower,hinge=right,open=false", .obj [("model", .str "door_bottom_rh"), ("y", .num 180)]),
   ("facing=north,half=lower,hinge=right,open=false", .obj [("model", .str "door_bottom_rh"), ("y", .num 270)]),
   ("facing=east,half=lower,hinge=left,open=true", .obj [("model", .str "door_bottom_rh"), ("y", .num 90)]),
   ("facing=south,half=lower,hinge=left,open=true", .obj [("model", .str "door_bottom_rh"), ("y", .num 180)]),
   ("facing=west,half=lower,hinge=left,open=true", .obj [("model", .str "door_bottom_rh"), ("y", .num 270)]),
   ("facing=north,half=lower,hinge=left,open=true", .obj [("model", .str "door_bottom_rh")]),
   ("facing=east,half=lower,hinge=right,open=true", .obj [("model", .str "door_bottom"), ("y", .num 270)]),
   ("facing=south,half=lower,hinge=right,open=true", .obj [("model", .str "door_bottom")]),
   ("facing=west,half=lower,hinge=right,open=true", .obj [("model", .str "door_bottom"), ("y", .num 90)]),
   ("facing=north,half=lower,hinge=right,open=true", .obj [("model", .str "door_bottom"), ("y", .num 180)]),
   ("facing=east,half=upper,hinge=left,open=false", .obj [("model", .str "door_top")]),
   ("facing=south,half=upper,hinge=left,open=false", .obj [("model", .str "door_top"), ("y", .num 90)]),
   ("facing=west,half=upper,hinge=left,open=false", .obj [("model", .str "door_top"), ("y", .num 180)]),
   ("facing=north,half=upper,hinge=left,open=false", .obj [("model", .str "door_top"), ("y", .num 270)]),
   ("facing=east,half=upper,hinge=right,open=false", .obj [("model", .str "door_top_rh")]),
   ("facing=south,half=upper,hinge=right,open=false", .obj [("model", .str "door_top_rh"), ("y", .num 90)]),
   ("facing=west,half=upper,hinge=right,open=false", .obj [("model", .str "door_top_rh"), ("y", .num 180)]),
   ("facing=north,half=upper,hinge=right,open=false", .obj [("model", .str "door_top_rh"), ("y", .num 270)]),
   ("facing=east,half=upper,hinge=left,open=true", .obj [("model", .str "door_top_rh"), ("y", .num 90)]),
   ("facing=south,half=upper,hinge=left,open=true", .obj [("model", .str "door_top_rh"), ("y", .num 180)]),
   ("facing=west,half=upper,hinge=left,open=true", .obj [("model", .str "door_top_rh"), ("y", .num 270)]),
   ("facing=north,half=upper,hinge=left,open=true", .obj [("model", .str "door_top_rh")]),
   ("facing=east,half=upper,hinge=right,open=true", .obj [("model", .str "door_top"), ("y", .num 270)]),
   ("facing=south,half=upper,hinge=right,open=true", .obj [("model", .str "door_top")]),
   ("facing=west,half=upper,hinge=right,open=true", .obj [("model", .str "door_top"), ("y", .num 90)]),
   ("facing=north,half=upper,hinge=right,open=true", .obj [("model", .str "door_top"), ("y", .num 180)])]

def TRAPDOOR_VARIANTS : List (String × JVal) :=
  [("normal", .null),
   ("facing=north,half=bottom,open=false", .obj [("model", .str "trapdoor_bottom")]),
   ("facing=south,half=bottom,open=false", .obj [("model", .str "trapdoor_bottom")]),
   ("facing=east,half=bottom,open=false", .obj [("model", .str "trapdoor_bottom")]),
   ("facing=west,half=bottom,open=false", .obj [("model", .str "trapdoor_bottom")]),
   ("facing=north,half=top,open=false", .obj [("model", .str "trapdoor_top")]),
   ("facing=south,half=top,open=false", .obj [("model", .str "trapdoor_top")]),
   ("facing=east,half=top,open=false", .obj [("model", .str "trapdoor_top")]),
   ("facing=west,half=top,open=false", .obj [("model", .str "trapdoor_top")]),
   ("facing=north,half=bottom,open=true", .obj [("model", .str "trapdoor_open")]),
   ("facing=south,half=bottom,open=true", .obj [("model", .str "trapdoor_open"), ("y", .num 180)]),
   ("facing=east,half=bottom,open=true", .obj [("model", .str "trapdoor_open"), ("y", .num 90)]),
   ("facing=west,half=bottom,open=true", .obj [("model", .str "trapdoor_open"), ("y", .num 270)]),
   ("facing=north,half=top,open=true", .obj [("model", .str "trapdoor_open")]),
   ("facing=south,half=top,open=true", .obj [("model", .str "trapdoor_open"), ("y", .num 180)]),
   ("facing=east,half=top,open=true", .obj [("model", .str "trapdoor_open"), ("y", .num 90)]),
   ("facing=west,half=top,open=true", .obj [("model", .str "trapdoor_open"), ("y", .num 270)])]

def STAIR_VARIANTS : List (String × JVal) :=
  [("normal", .obj [("model", .str "stairs")]),
   ("facing=east,half=bottom,shape=straight", .obj [("model", .str "stairs")]),
   ("facing=west,half=bottom,shape=straight", .obj [("model", .str "stairs"), ("y", .num 180)]),
   ("facing=south,half=bottom,shape=straight", .obj [("model", .str "stairs"), ("y", .num 90)]),
   ("facing=north,half=bottom,shape=straight", .obj [("model", .str "stairs"), ("y", .num 270)]),
   ("facing=east,half=bottom,shape=outer_right", .obj [("model", .str "outer_stairs")]),
   ("facing=west,half=bottom,shape=outer_right", .obj [("model", .str "outer_stairs"), ("y", .num 180)]),
   ("facing=south,half=bottom,shape=outer_right", .obj [("model", .str "outer_stairs"), ("y", .num 90)]),
   ("facing=north,half=bottom,shape=outer_right", .obj [("model", .str "outer_stairs"), ("y", .num 270)]),
   ("facing=east,half=bottom,shape=outer_left", .obj [("model", .str "outer_stairs"), ("y", .num 270)]),
   ("facing=west,half=bottom,shape=outer_left", .obj [("model", .str "outer_stairs"), ("y", .num 90)]),
   ("facing=south,half=bottom,shape=outer_left", .obj [("model", .str "outer_stairs")]),
   ("facing=north,half=bottom,shape=outer_left", .obj [("model", .str "outer_stairs"), ("y", .num 180)]),
   ("facing=east,half=bottom,shape=inner_right", .obj [("model", .str "inner_stairs")]),
   ("facing=west,half=bottom,shape=inner_right", .obj [("model", .str "inner_stairs"), ("y", .num 180)]),
   ("facing=south,half=bottom,shape=inner_right", .obj [("model", .str "inner_stairs"), ("y", .num 90)]),
   ("facing=north,half=bottom,shape=inner_right", .obj [("model", .str "inner_stairs"), ("y", .num 270)]),
   ("facing=east,half=bottom,shape=inner_left", .obj [("model", .str "inner_stairs"), ("y", .num 270)]),
   ("facing=west,half=bottom,shape=inner_left", .obj [("model", .str "inner_stairs"), ("y", .num 90)]),
   ("facing=south,half=bottom,shape=inner_left", .obj [("model", .str "inner_stairs")]),
   ("facing=north,half=bottom,shape=inner_left", .obj [("model", .str "inner_stairs"), ("y", .num 180)]),
   ("facing=east,half=top,shape=straight", .obj [("model", .str "stairs"), ("x", .num 180)]),
   ("facing=west,half=top,shape=straight", .obj [("model", .str "stairs"), ("x", .num 180), ("y", .num 180)]),
   ("facing=south,half=top,shape=straight", .obj [("model", .str "stairs"), ("x", .num 180), ("y", .num 90)]),
   ("facing=north,half=top,shape=straight", .obj [("model", .str "stairs"), ("x", .num 180), ("y", .num 270)]),
   ("facing=east,half=top,shape=outer_right", .obj [("model", .str "outer_stairs"), ("x", .num 180), ("y", .num 90)]),
   ("facing=west,half=top,shape=outer_right", .obj [("model", .str "outer_stairs"), ("x", .num 180), ("y", .num 270)]),
   ("facing=south,half=top,shape=outer_right", .obj [("model", .str "outer_stairs"), ("x", .num 180), ("y", .num 180)]),
   ("facing=north,half=top,shape=outer_right", .obj [("model", .str "outer_stairs"), ("x", .num 180)]),
   ("facing=east,half=top,shape=outer_left", .obj [("model", .str "outer_stairs"), ("x", .num 180)]),
   ("facing=west,half=top,shape=outer_left", .obj [("model", .str "outer_stairs"), ("x", .num 180), ("y", .num 180)]),
   ("facing=south,half=top,shape=outer_left", .obj [("model", .str "outer_stairs"), ("x", .num 180), ("y", .num 90)]),
   ("facing=north,half=top,shape=outer_left", .obj [("model", .str "outer_stairs"), ("x", .num 180), ("y", .num 270)]),
   ("facing=east,half=top,shape=inner_right", .obj [("model", .str "inner_stairs"), ("x", .num 180), ("y", .num 90)]),
   ("facing=west,half=top,shape=inner_right", .obj [("model", .str "inner_stairs"), ("x", .num 180), ("y", .num 270)]),
   ("facing=south,half=top,shape=inner_right", .obj [("model", .str "inner_stairs"), ("x", .num 180), ("y", .num 180)]),
   ("facing=north,half=top,shape=inner_right", .obj [("model", .str "inner_stairs"), ("x", .num 180)]),
   ("facing=east,half=top,shape=inner_left", .obj [("model", .str "inner_stairs"), ("x", .num 180)]),
   ("facing=west,half=top,shape=inner_left", .obj [("model", .str "inner_stairs"), ("x", .num 180), ("y", .num 180)]),
   ("facing=south,half=top,shape=inner_left", .obj [("model", .str "inner_stairs"), ("x", .num 180), ("y", .num 90)]),
   ("facing=north,half=top,shape=inner_left", .obj [("model", .str "inner_stairs"), ("x", .num 180), ("y", .num 270)])]

/-! Inline variant tables built at the call sites of the driver. -/

/-- The dict comprehension used for grass and clay grass: per-side overlay
switching the side texture to the given top texture. -/
def sideOverlayVariants (top : String) : List (String × JVal) :=
  ["north", "south", "east", "west"].map (fun side =>
    (side, .obj [("true", .obj [("textures", .obj [(side, .str top)])]),
                 ("false", .obj [])]))

def WALL_VARIANTS : List (String × JVal) :=
  [("normal", .null),
   ("inventory", .obj [("model", .str "wall_inventory")]),
   ("north", .obj [("true", .obj [("submodel", .str "wall_side")]), ("false", .obj [])]),
   ("east", .obj [("true", .obj [("submodel", .str "wall_side"), ("y", .num 90)]), ("false", .obj [])]),
   ("south", .obj [("true", .obj [("submodel", .str "wall_side"), ("y", .num 180)]), ("false", .obj [])]),
   ("west", .obj [("true", .obj [("submodel", .str "wall_side"), ("y", .num 270)]), ("false", .obj [])]),
   ("up", .obj [("true", .obj [("submodel", .str "wall_post"), ("y", .num 270)]), ("false", .obj [])])]

def SLAB_VARIANTS : List (String × JVal) :=
  [("half", .obj [("bottom", .obj []), ("top", .obj [("model", .str "upper_slab")])])]

/-- The variant table shared by the stone and wood button calls; note the
inventory value is a list holding a dict. -/
def BUTTON_VARIANTS : List (String × JVal) :=
  [("powered", .obj [("false", .obj []), ("true", .obj [("model", .str "button_pressed")])]),
   ("facing", .obj [("up", .obj []), ("down", .obj [("x", .num 180)]),
                    ("east", .obj [("x", .num 90), ("y", .num 90)]),
                    ("west", .obj [("x", .num 90), ("y", .num 270)]),
                    ("south", .obj [("x", .num 90), ("y", .num 180)]),
                    ("north", .obj [("x", .num 90)])]),
   ("inventory", .arr [.obj [("model", .str "button_inventory")]])]

def logVariants (wood : String) : List (String × JVal) :=
  [("axis", .obj [("y", .obj []), ("z", .obj [("x", .num 90)]),
                  ("x", .obj [("x", .num 90), ("y", .num 90)]),
                  ("none", .obj [("textures", .obj [("end", .str ("tfc:blocks/wood/log/" ++ wood))])])]),
   ("small", .obj [("true", .obj [("model", .str "tfc:small_log")]), ("false", .obj [])])]

def FENCE_VARIANTS : List (String × JVal) :=
  [("inventory", .obj [("model", .str "fence_inventory")]),
   ("north", .obj [("true", .obj [("submodel", .str "fence_side")]), ("false", .obj [])]),
   ("east", .obj [("true", .obj [("submodel", .str "fence_side"), ("y", .num 90)]), ("false", .obj [])]),
   ("south", .obj [("true", .obj [("submodel", .str "fence_side"), ("y", .num 180)]), ("false", .obj [])]),
   ("west", .obj [("true", .obj [("submodel", .str "fence_side"), ("y", .num 270)]), ("false", .obj [])])]

def FENCE_GATE_VARIANTS : List (String × JVal) :=
  [("inventory", .arr [.obj []]),
   ("facing", .obj [("south", .obj []), ("west", .obj [("y", .num 90)]),
                    ("north", .obj [("y", .num 180)]), ("east", .obj [("y", .num 270)])]),
   ("open", .obj [("true", .obj [("model", .str "fence_gate_open")]), ("false", .obj [])]),
   ("in_wall", .obj [("true", .obj [("transform", .obj [("translation",
       .arr [.num 0, .flt (-(3 : Rat) / 16), .num 0])])]), ("false", .obj [])])]

def SAPLING_VARIANTS : List (String × JVal) :=
  [("inventory", .obj [("model", .str "builtin/generated"),
                       ("transform", .str "forge:default-item")])]

/-! The driver: every emission of the module top level, in source order,
as a list of calls to the two emission primitives. -/

/-- One emission of the driver: a blockstate call or an item call. -/
inductive Call where
  | bs (filename_parts : List String) (model : Option String)
       (textures : List (TexKey × String)) (variants : Option (List (String × JVal))) : Call
  | it (filename_parts : List String) (layers : List String) (parent : String) : Call

/-- Run one emission: the file it writes, as (path, value). -/
def exec : Call → String × JVal
  | .bs parts m t v => blockstate parts m t v
  | .it parts ls p => item parts ls p

/-- A driver call through the cube_all wrapper. -/
def cube_all_call (filename_parts : List String) (texture : String)
    (variants : Option (List (String × JVal))) (model : String) : Call :=
  .bs filename_parts (some model) [(.single "all", texture)] variants

def fluidCalls : List Call :=
  FLUIDS.map (fun nf => .bs ["fluid", nf.1] (some "forge:fluid") []
    (some [("normal", .obj [
      ("transform", .str "forge:default-item"),
      ("custom", .obj [("fluid", .str nf.2)])])]))

def rockCalls : List Call :=
  ROCK_TYPES.flatMap (fun rock_type =>
    FULLBLOCK_TYPES.map (fun block_type =>
      cube_all_call [block_type, rock_type]
        ("tfc:blocks/stonetypes/" ++ block_type ++ "/" ++ rock_type) none "cube_all")
    ++ ORE_TYPES.map (fun bt =>
      .bs ["ore", bt.1, rock_type] (some "tfc:ore")
        [(.group ["all", "particle"], "tfc:blocks/stonetypes/raw/" ++ rock_type),
         (.single "overlay", "tfc:blocks/ores/" ++ bt.1)] none)
    ++ GRASS_TYPES.map (fun block_type =>
      .bs [block_type, rock_type] (some "tfc:grass")
        [(.group ["all", "particle"], "tfc:blocks/stonetypes/dirt/" ++ rock_type),
         (.single "particle", "tfc:blocks/stonetypes/dirt/" ++ rock_type),
         (.single "top", "tfc:blocks/" ++ block_type ++ "_top"),
         (.group ["north", "south", "east", "west"], "tfc:blocks/" ++ block_type ++ "_side")]
        (some (sideOverlayVariants ("tfc:blocks/" ++ block_type ++ "_top"))))
    ++ [.bs ["clay_grass", rock_type] (some "tfc:grass")
        [(.group ["all", "particle"], "tfc:blocks/stonetypes/clay/" ++ rock_type),
         (.single "top", "tfc:blocks/grass_top"),
         (.group ["north", "south", "east", "west"], "tfc:blocks/grass_side")]
        (some (sideOverlayVariants "tfc:blocks/grass_top"))]
    ++ ["cobble", "bricks"].map (fun block_type =>
      .bs ["wall", block_type, rock_type] (some "tfc:empty")
        [(.group ["wall", "particle"], "tfc:blocks/stonetypes/" ++ block_type ++ "/" ++ rock_type)]
        (some WALL_VARIANTS))
    ++ ["smooth", "cobble", "bricks"].flatMap (fun block_type =>
      [.bs ["stairs", block_type, rock_type] none
         [(.group ["top", "bottom", "side"], "tfc:blocks/stonetypes/" ++ block_type ++ "/" ++ rock_type)]
         (some STAIR_VARIANTS),
       .bs ["slab", "half", block_type, rock_type] (some "half_slab")
         [(.group ["top", "bottom", "side"], "tfc:blocks/stonetypes/" ++ block_type ++ "/" ++ rock_type)]
         (some SLAB_VARIANTS),
       cube_all_call ["slab", "full", block_type, rock_type]
         ("tfc:blocks/stonetypes/" ++ block_type ++ "/" ++ rock_type) none "cube_all"])
    ++ [.bs ["stone", "button", rock_type] (some "button")
        [(.group ["texture", "particle"], "tfc:blocks/stonetypes/raw/" ++ rock_type)]
        (some BUTTON_VARIANTS)])

def woodCalls : List Call :=
  WOOD_TYPES.flatMap (fun wood =>
    [.bs ["wood", "log", wood] (some "cube_column")
       [(.group ["particle", "side"], "tfc:blocks/wood/log/" ++ wood),
        (.single "end", "tfc:blocks/wood/top/" ++ wood),
        (.single "layer0", "tfc:items/wood/log/" ++ wood)]
       (some (logVariants wood)),
     cube_all_call ["wood", "planks", wood] ("tfc:blocks/wood/planks/" ++ wood) none "cube_all",
     cube_all_call ["wood", "leaves", wood] ("tfc:blocks/wood/leaves/" ++ wood) none "leaves",
     .bs ["wood", "fence", wood] (some "fence_post")
       [(.single "texture", "tfc:blocks/wood/planks/" ++ wood)] (some FENCE_VARIANTS),
     .bs ["wood", "fence_gate", wood] (some "fence_gate_closed")
       [(.single "texture", "tfc:blocks/wood/planks/" ++ wood)] (some FENCE_GATE_VARIANTS),
     .bs ["wood", "sapling", wood] (some "cross")
       [(.group ["cross", "layer0"], "tfc:blocks/saplings/" ++ wood)] (some SAPLING_VARIANTS),
     .bs ["wood", "door", wood] none
       [(.single "bottom", "tfc:blocks/wood/door/lower/" ++ wood),
        (.single "top", "tfc:blocks/wood/door/upper/" ++ wood)] (some DOOR_VARIANTS),
     .bs ["stairs", "wood", wood] none
       [(.group ["top", "bottom", "side"], "tfc:blocks/wood/planks/" ++ wood)]
       (some STAIR_VARIANTS),
     .bs ["slab", "half", "wood", wood] (some "half_slab")
       [(.group ["top", "bottom", "side"], "tfc:blocks/wood/planks/" ++ wood)]
       (some SLAB_VARIANTS),
     cube_all_call ["slab", "full", "wood", wood] ("tfc:blocks/wood/planks/" ++ wood) none "cube_all",
     .bs ["wood", "trapdoor", wood] none
       [(.single "texture", "tfc:blocks/wood/trapdoor/" ++ wood)] (some TRAPDOOR_VARIANTS),
     .bs ["wood", "chest", wood] (some "tfc:chest")
       [(.single "texture", "tfc:model/wood/chest/" ++ wood),
        (.single "particle", "tfc:blocks/wood/planks/" ++ wood)] none,
     .bs ["wood", "chest_trap", wood] (some "tfc:chest")
       [(.single "texture", "tfc:model/wood/chest_trap/" ++ wood),
        (.single "particle", "tfc:blocks/wood/planks/" ++ wood)] none,
     .bs ["wood", "button", wood] (some "button")
       [(.group ["texture", "particle"], "tfc:blocks/wood/planks/" ++ wood)]
       (some BUTTON_VARIANTS),
     .bs ["wood", "bookshelf", wood] (some "tfc:bookshelf")
       [(.group ["all", "particle"], "tfc:blocks/wood/planks/" ++ wood),
        (.group ["north", "south", "east", "west"], "tfc:blocks/wood/bookshelf")] none,
     .bs ["wood", "workbench", wood] (some "tfc:workbench")
       [(.group ["all", "particle"], "tfc:blocks/wood/planks/" ++ wood),
        (.single "top", "tfc:blocks/wood/workbench_top"),
        (.group ["north", "south"], "tfc:blocks/wood/workbench_front"),
        (.group ["east", "west"], "tfc:blocks/wood/workbench_side")] none])

def oreItemCalls : List Call :=
  ORE_TYPES.flatMap (fun ob =>
    (if ob.2 then
      ["poor", "rich", "small"].map (fun grade =>
        .it ["ore", grade, ob.1] ["tfc:items/ore/" ++ grade ++ "/" ++ ob.1] "item/generated")
     else [])
    ++ [.it ["ore", "normal", ob.1] ["tfc:items/ore/" ++ ob.1] "item/generated"])

def rockItemCalls : List Call :=
  ROCK_TYPES.flatMap (fun rock =>
    ["rock", "brick"].map (fun ty =>
      .it [ty, rock] ["tfc:items/stonetypes/" ++ ty ++ "/" ++ rock] "item/generated"))

def doorItemCalls : List Call :=
  WOOD_TYPES.flatMap (fun wood =>
    [.it ["wood", "log", wood] ["tfc:items/wood/log/" ++ wood] "item/generated",
     .it ["wood", "door", wood] ["tfc:items/wood/door/" ++ wood] "item/generated"])

def gemCalls : List Call :=
  GEM_TYPES.flatMap (fun gem =>
    GEM_GRADES.map (fun grade =>
      .it ["gem", grade, gem] ["tfc:items/gem/" ++ grade ++ "/" ++ gem] "item/generated"))

/-- Parent selection for metal items: handheld for tools, generated
otherwise, and the flipped handheld for knife and javelin. -/
def metalParent (item_type : String) : String :=
  let parent := if TOOLS.contains item_type then "item/handheld" else "item/generated"
  if item_type = "knife" || item_type = "javelin" then "tfc:item/handheld_flipped" else parent

def metalItemCalls : List Call :=
  METAL_ITEMS.flatMap (fun itb =>
    METAL_TYPES.filterMap (fun mtb =>
      if itb.2 && !mtb.2 then none
      else some (.it ["metal", itb.1, mtb.1]
        ["tfc:items/metal/" ++ (itb.1.replace "unfinished_" "") ++ "/" ++ mtb.1]
        (metalParent itb.1))))

def steelIngotItemCalls (steel : List String) : List Call :=
  steel.flatMap (fun metal =>
    ["high_carbon", "weak"].map (fun ty =>
      .it ["metal", "ingot", ty ++ "_" ++ metal]
        ["tfc:items/metal/ingot/" ++ metal] "item/generated"))

def unknownIngotCall : Call :=
  .it ["metal", "ingot", "unknown"] ["tfc:items/metal/ingot/unknown"] "item/generated"

def lumberCalls : List Call :=
  WOOD_TYPES.map (fun wood =>
    .it ["wood", "lumber", wood] ["tfc:items/wood/lumber/" ++ wood] "item/generated")

def rockToolParent (item_type : String) : String :=
  if item_type = "knife" || item_type = "javelin" then "tfc:item/handheld_flipped"
  else "item/handheld"

def rockToolCalls : List Call :=
  ROCK_CATEGORIES.flatMap (fun cat =>
    ["axe", "shovel", "hoe", "knife", "javelin", "hammer"].map (fun ty =>
      .it ["stone", ty, cat] ["tfc:items/stone/" ++ ty] (rockToolParent ty)))

def powderCalls : List Call :=
  POWDERS.map (fun p => .it ["powder", p] ["tfc:items/powder/" ++ p] "item/generated")

def goldpanCalls : List Call :=
  ["empty", "sand", "gravel", "clay", "dirt"].map (fun ty =>
    .it ["goldpan", ty] ["tfc:items/goldpan/" ++ ty] "item/generated")

/-- The _heads list: tool heads and tool blades. -/
def HEADS : List String := TOOLS.map (· ++ "_head") ++ TOOLS.map (· ++ "_blade")

/-- item_type.split(sep)[0] for the mold texture path. -/
def splitFirst (s : String) : String := (s.splitOn "_").headD ""

def moldHeadCalls : List Call :=
  ["empty", "unfired", "copper", "bronze", "black_bronze", "bismuth_bronze"].flatMap
    (fun metal =>
      METAL_ITEMS.filterMap (fun itb =>
        if HEADS.contains itb.1 then
          some (.it ["mold", itb.1, metal]
            ["tfc:items/mold/" ++ metal ++ "/" ++ splitFirst itb.1] "item/generated")
        else none))

def moldIngotCalls : List Call :=
  (METAL_TYPES.map Prod.fst ++ ["unfired", "empty"]).map (fun metal =>
    .it ["mold", "ingot", metal] ["tfc:items/mold/ingot/" ++ metal] "item/generated")

def moldIngotUnknownCall : Call :=
  .it ["mold", "ingot", "unknown"] ["tfc:items/mold/ingot/unknown"] "item/generated"

def steelMoldIngotCalls (steel : List String) : List Call :=
  steel.flatMap (fun metal =>
    ["high_carbon", "weak"].map (fun ty =>
      .it ["mold", "ingot", ty ++ "_" ++ metal]
        ["tfc:items/mold/ingot/" ++ metal] "item/generated"))

def ceramicsCalls : List Call :=
  [.it ["ceramics", "unfired", "vessel"] ["tfc:items/ceramics/unfired/vessel"] "item/generated",
   .it ["ceramics", "fired", "vessel"] ["tfc:items/ceramics/fired/vessel"] "item/generated",
   .it ["ceramics", "unfired", "vessel_glazed"]
     ["tfc:items/ceramics/unfired/vessel", "tfc:items/ceramics/fired/vessel_overlay"]
     "item/generated",
   .it ["ceramics", "fired", "vessel_glazed"]
     ["tfc:items/ceramics/fired/vessel", "tfc:items/ceramics/fired/vessel_overlay"]
     "item/generated",
   .it ["ceramics", "unfired", "spindle"] ["tfc:items/ceramics/unfired/spindle"] "item/generated",
   .it ["ceramics", "fired", "spindle"] ["tfc:items/ceramics/fired/spindle"] "item/generated",
   .it ["ceramics", "unfired", "pot"] ["tfc:items/ceramics/unfired/pot"] "item/generated",
   .it ["ceramics", "fired", "pot"] ["tfc:items/ceramics/fired/pot"] "item/generated",
   .it ["ceramics", "unfired", "bowl"] ["tfc:items/ceramics/unfired/bowl"] "item/generated",
   .it ["ceramics", "fired", "bowl"] ["tfc:items/ceramics/fired/bowl"] "item/generated",
   .it ["ceramics", "unfired", "fire_brick"] ["tfc:items/ceramics/unfired/fire_brick"] "item/generated",
   .it ["ceramics", "fired", "fire_brick"] ["tfc:items/ceramics/fired/fire_brick"] "item/generated",
   .it ["ceramics", "unfired", "jug"] ["tfc:items/ceramics/unfired/jug"] "item/generated",
   .it ["ceramics", "fired", "jug"] ["tfc:items/ceramics/fired/jug"] "item/generated",
   .it ["ceramics", "fire_clay"] ["tfc:items/ceramics/fire_clay"] "item/generated"]

def flatCalls : List Call :=
  ROCK_TYPES.map (fun rock => .it ["flat", rock] ["tfc:items/flat/" ++ rock] "item/generated")
  ++ [.it ["flat", "leather"] ["tfc:items/flat/leather"] "item/generated",
      .it ["flat", "clay"] ["tfc:items/flat/clay"] "item/generated",
      .it ["flat", "fire_clay"] ["tfc:items/flat/fire_clay"] "item/generated"]

/-- Driver calls before the first STEEL loop. -/
def callsA : List Call :=
  fluidCalls ++ rockCalls ++ woodCalls ++ oreItemCalls ++ rockItemCalls ++
  doorItemCalls ++ gemCalls ++ metalItemCalls

/-- Driver calls between the two STEEL loops. -/
def callsB : List Call :=
  [unknownIngotCall] ++ lumberCalls ++ rockToolCalls ++ powderCalls ++
  goldpanCalls ++ moldHeadCalls ++ moldIngotCalls ++ [moldIngotUnknownCall]

/-- Driver calls after the second STEEL loop. -/
def callsC : List Call := ceramicsCalls ++ flatCalls

/-- Every emission of the run, in source order. The two loops iterating
the STEEL set are given its iteration order explicitly, since Python does
not fix the iteration order of a string set across processes. -/
def allCalls (steel : List String) : List Call :=
  callsA ++ steelIngotItemCalls steel ++ callsB ++ steelMoldIngotCalls steel ++ callsC

/-! The module prelude and the run as an event trace. -/

/-- The previous output tree under src/main/resources/assets/tfc, as
(relative path, bytes) pairs; only archived, never read. -/
def Tree : Type := List (String × String)

/-- Observable filesystem actions of one run of the script. -/
inductive Event where
  | mkdirBackups : Event
  | writeGitignoreAll : Event
  | archive : String → Tree → Event
  | chdirAssets : Event
  | write : String → JVal → Event

/-- One run of the script: if the backup root is missing, create it and
write its ignore-everything marker; zip the current output tree into
assets_backups/(seconds).zip; chdir into the assets tree; then perform
every driver emission in order. backupsExists models os.path.isdir at
entry, t models int(time.time()), prev the tree zipfolder walks, steel
the iteration order of the STEEL set. -/
def run (backupsExists : Bool) (t : Nat) (prev : Tree) (steel : List String) :
    List Event :=
  (if backupsExists then [] else [.mkdirBackups, .writeGitignoreAll]) ++
  ([.archive ("assets_backups/" ++ toString t ++ ".zip") prev, .chdirAssets] ++
   (allCalls steel).map (fun c => .write (exec c).1 (exec c).2))

/-- The descriptor files a trace writes, in order. -/
def writesOf (evs : List Event) : List (String × JVal) :=
  evs.filterMap (fun e => match e with | .write p v => some (p, v) | _ => none)

/-- Content of the file at path p after a sequence of writes (last write
wins; files not written are absent). -/
def lastContent (p : String) (ws : List (String × JVal)) : Option JVal :=
  getKey p ws.reverse

/-- A trivial stand-in serializer, used only to instantiate theorems that
hold for every serialization function. -/
def serializeConst : JVal → String := fun _ => "bytes"

/-! Equation lemmas for del_none and delNoneVal. -/

@[simp] theorem del_none_nil : del_none [] = [] := by rw [del_none]

@[simp] theorem del_none_cons_null {k : String} {rest : List (String × JVal)} :
    del_none ((k, .null) :: rest) = del_none rest := by rw [del_none]

@[simp] theorem del_none_cons_obj {k : String} {fs : List (String × JVal)}
    {rest : List (String × JVal)} :
    del_none ((k, .obj fs) :: rest) = (k, .obj (del_none fs)) :: del_none rest := by
  rw [del_none]

@[simp] theorem del_none_cons_str {k s : String} {rest : List (String × JVal)} :
    del_none ((k, .str s) :: rest) = (k, .str s) :: del_none rest := by
  rw [del_none] <;> simp

@[simp] theorem del_none_cons_num {k : String} {n : Int} {rest : List (String × JVal)} :
    del_none ((k, .num n) :: rest) = (k, .num n) :: del_none rest := by
  rw [del_none] <;> simp

@[simp] theorem del_none_cons_flt {k : String} {q : Rat} {rest : List (String × JVal)} :
    del_none ((k, .flt q) :: rest) = (k, .flt q) :: del_none rest := by
  rw [del_none] <;> simp

@[simp] theorem del_none_cons_arr {k : String} {xs : List JVal}
    {rest : List (String × JVal)} :
    del_none ((k, .arr xs) :: rest) = (k, .arr xs) :: del_none rest := by
  rw [del_none] <;> simp

@[simp] theorem delNoneVal_null : delNoneVal .null = .null := rfl

@[simp] theorem delNoneVal_str {s : String} : delNoneVal (.str s) = .str s := rfl

@[simp] theorem delNoneVal_num {n : Int} : delNoneVal (.num n) = .num n := rfl

@[simp] theorem delNoneVal_flt {q : Rat} : delNoneVal (.flt q) = .flt q := rfl

@[simp] theorem delNoneVal_obj {fs : List (String × JVal)} :
    delNoneVal (.obj fs) = .obj (del_none fs) := rfl

@[simp] theorem delNoneVal_arr {xs : List JVal} : delNoneVal (.arr xs) = .arr xs := rfl

/-! Association list lemmas for getKey, dictSet and dictUpdate. -/

section AssocLemmas

variable {α : Type}

@[simp] theorem getKey_nil {k : String} : getKey k ([] : List (String × α)) = none := rfl

@[simp] theorem getKey_cons {k k' : String} {v : α} {l : List (String × α)} :
    getKey k ((k', v) :: l) = if k' = k then some v else getKey k l := rfl

theorem getKey_append {k : String} (l1 l2 : List (String × α)) :
    getKey k (l1 ++ l2) = (getKey k l1).or (getKey k l2) := by
  induction l1 with
  | nil => simp
  | cons hd tl ih =>
      obtain ⟨k', v⟩ := hd
      by_cases h : k' = k <;> simp [h, ih]

@[simp] theorem keys_nil : keys ([] : List (String × α)) = [] := rfl

@[simp] theorem keys_cons {k : String} {v : α} {l : List (String × α)} :
    keys ((k, v) :: l) = k :: keys l := rfl

@[simp] theorem keys_append (l1 l2 : List (String × α)) :
    keys (l1 ++ l2) = keys l1 ++ keys l2 := by simp [keys]

theorem any_key_iff {k : String} {d : List (String × α)} :
    d.any (fun kv => kv.1 = k) = true ↔ k ∈ keys d := by
  induction d with
  | nil => simp
  | cons hd tl ih =>
      obtain ⟨k', v⟩ := hd
      by_cases h : k' = k
      · simp [h]
      · simp [h, ih, Ne.symm h]

theorem getKey_eq_none_iff {k : String} {l : List (String × α)} :
    getKey k l = none ↔ k ∉ keys l := by
  induction l with
  | nil => simp
  | cons hd tl ih =>
      obtain ⟨k', v⟩ := hd
      by_cases h : k' = k
      · simp [h]
      · simp [h, ih, Ne.symm h]

theorem keys_map_setfn {k : String} {v : α} (d : List (String × α)) :
    keys (d.map (fun kv => if kv.1 = k then (k, v) else kv)) = keys d := by
  induction d with
  | nil => rfl
  | cons hd tl ih =>
      obtain ⟨k', v'⟩ := hd
      by_cases h : k' = k <;> simp [h, ih]

theorem getKey_map_setfn_self {k : String} {v : α} {d : List (String × α)}
    (h : k ∈ keys d) :
    getKey k (d.map (fun kv => if kv.1 = k then (k, v) else kv)) = some v := by
  induction d with
  | nil => simp at h
  | cons hd tl ih =>
      obtain ⟨k', v'⟩ := hd
      by_cases hk : k' = k
      · simp [hk]
      · have h' : k ∈ keys tl := by
          rcases (by simpa using h : k = k' ∨ k ∈ keys tl) with h1 | h1
          · exact absurd h1.symm hk
          · exact h1
        simp [hk, ih h']

theorem getKey_map_setfn_ne {k k2 : String} {v : α} {d : List (String × α)}
    (hne : k2 ≠ k) :
    getKey k2 (d.map (fun kv => if kv.1 = k then (k, v) else kv)) = getKey k2 d := by
  induction d with
  | nil => rfl
  | cons hd tl ih =>
      obtain ⟨k', v'⟩ := hd
      by_cases hk : k' = k
      · subst hk
        simp [Ne.symm hne, ih]
      · simp [hk, ih]

theorem keys_dictSet_of_mem {k : String} {v : α} {d : List (String × α)}
    (h : d.any (fun kv => kv.1 = k) = true) : keys (dictSet d k v) = keys d := by
  unfold dictSet
  rw [if_pos h, keys_map_setfn]

theorem keys_dictSet_of_not_mem {k : String} {v : α} {d : List (String × α)}
    (h : ¬ d.any (fun kv => kv.1 = k) = true) : keys (dictSet d k v) = keys d ++ [k] := by
  unfold dictSet
  rw [if_neg h]
  simp

theorem nodupKeys_dictSet {k : String} {v : α} {d : List (String × α)}
    (h : NodupKeys d) : NodupKeys (dictSet d k v) := by
  by_cases hm : d.any (fun kv => kv.1 = k) = true
  · unfold NodupKeys
    rw [keys_dictSet_of_mem hm]
    exact h
  · unfold NodupKeys
    rw [keys_dictSet_of_not_mem hm]
    have hk : k ∉ keys d := fun hc => hm (any_key_iff.mpr hc)
    simp [List.nodup_append, hk]
    exact h

theorem getKey_dictSet_self {k : String} {v : α} {d : List (String × α)} :
    getKey k (dictSet d k v) = some v := by
  by_cases hm : d.any (fun kv => kv.1 = k) = true
  · unfold dictSet
    rw [if_pos hm]
    exact getKey_map_setfn_self (any_key_iff.mp hm)
  · unfold dictSet
    rw [if_neg hm, getKey_append]
    have h0 : getKey k d = none := getKey_eq_none_iff.mpr (fun hc => hm (any_key_iff.mpr hc))
    simp [h0]

theorem getKey_dictSet_of_ne {k k2 : String} {v : α} {d : List (String × α)}
    (hne : k2 ≠ k) : getKey k2 (dictSet d k v) = getKey k2 d := by
  by_cases hm : d.any (fun kv => kv.1 = k) = true
  · unfold dictSet
    rw [if_pos hm]
    exact getKey_map_setfn_ne hne
  · unfold dictSet
    rw [if_neg hm, getKey_append]
    simp [Ne.symm hne]

theorem dictSet_of_not_mem {k : String} {v : α} {d : List (String × α)}
    (h : k ∉ keys d) : dictSet d k v = d ++ [(k, v)] := by
  unfold dictSet
  rw [if_neg (fun hc => h (any_key_iff.mp hc))]

@[simp] theorem dictUpdate_nil {d : List (String × α)} : dictUpdate d [] = d := rfl

@[simp] theorem dictUpdate_cons {d : List (String × α)} {k : String} {v : α}
    {u : List (String × α)} :
    dictUpdate d ((k, v) :: u) = dictUpdate (dictSet d k v) u := rfl

theorem getKey_dictUpdate_of_none {k : String} {d u : List (String × α)}
    (h : getKey k u = none) : getKey k (dictUpdate d u) = getKey k d := by
  induction u generalizing d with
  | nil => rfl
  | cons hd tl ih =>
      obtain ⟨k0, v0⟩ := hd
      by_cases hk : k0 = k
      · simp [hk] at h
      · simp [hk] at h
        rw [dictUpdate_cons, ih h, getKey_dictSet_of_ne (fun hc => hk hc.symm)]

theorem getKey_dictUpdate_of_some {k : String} {v : α} {d u : List (String × α)}
    (hu : NodupKeys u) (h : getKey k u = some v) :
    getKey k (dictUpdate d u) = some v := by
  induction u generalizing d with
  | nil => simp at h
  | cons hd tl ih =>
      obtain ⟨k0, v0⟩ := hd
      have hnd : k0 ∉ keys tl ∧ NodupKeys tl := by
        simpa [NodupKeys, keys] using hu
      by_cases hk : k0 = k
      · subst hk
        simp at h
        subst h
        have htl : getKey k0 tl = none := getKey_eq_none_iff.mpr hnd.1
        rw [dictUpdate_cons, getKey_dictUpdate_of_none htl, getKey_dictSet_self]
      · simp [hk] at h
        rw [dictUpdate_cons]
        exact ih hnd.2 h

theorem nodupKeys_dictUpdate {d u : List (String × α)} (h : NodupKeys d) :
    NodupKeys (dictUpdate d u) := by
  induction u generalizing d with
  | nil => exact h
  | cons hd tl ih =>
      obtain ⟨k0, v0⟩ := hd
      rw [dictUpdate_cons]
      exact ih (nodupKeys_dictSet h)

theorem getKey_of_mem_nodup {k : String} {v : α} {l : List (String × α)}
    (hm : (k, v) ∈ l) (hnd : NodupKeys l) : getKey k l = some v := by
  induction l with
  | nil => simp at hm
  | cons hd tl ih =>
      obtain ⟨k', v'⟩ := hd
      have hnd' : k' ∉ keys tl ∧ NodupKeys tl := by
        simpa [NodupKeys, keys] using hnd
      rcases (by simpa using hm : (k = k' ∧ v = v') ∨ (k, v) ∈ tl) with ⟨h1, h2⟩ | h1
      · simp [h1, h2]
      · have hk : ¬ k' = k := by
          rintro rfl
          exact hnd'.1 (by simpa [keys] using List.mem_map_of_mem Prod.fst h1)
        simp [hk, ih h1 hnd'.2]

end AssocLemmas

/-! Lemmas about the pruning behaviour of del_none. -/

theorem mem_keys_del_none {k : String} {fs : List (String × JVal)}
    (h : k ∈ keys (del_none fs)) : k ∈ keys fs := by
  induction fs with
  | nil => simp at h
  | cons hd tl ih =>
      obtain ⟨k0, v⟩ := hd
      cases v <;> simp at h ⊢ <;> tauto

theorem getKey_del_none_of_some {k : String} {v : JVal} {fs : List (String × JVal)}
    (h : getKey k fs = some v) (hv : v ≠ .null) :
    getKey k (del_none fs) = some (delNoneVal v) := by
  induction fs with
  | nil => simp at h
  | cons hd tl ih =>
      obtain ⟨k0, v0⟩ := hd
      by_cases hk : k0 = k
      · subst hk
        simp at h
        subst h
        cases v0 <;> simp at hv ⊢
      · simp [hk] at h
        cases v0 <;> simp [hk] <;> exact ih h

theorem getKey_del_none_of_null {k : String} {fs : List (String × JVal)}
    (hn : NodupKeys fs) (h : getKey k fs = some .null) :
    getKey k (del_none fs) = none := by
  induction fs with
  | nil => simp at h
  | cons hd tl ih =>
      obtain ⟨k0, v0⟩ := hd
      have hnd : k0 ∉ keys tl ∧ NodupKeys tl := by
        simpa [NodupKeys, keys] using hn
      by_cases hk : k0 = k
      · subst hk
        simp at h
        subst h
        simp
        exact getKey_eq_none_iff.mpr (fun hc => hnd.1 (mem_keys_del_none hc))
      · simp [hk] at h
        cases v0 <;> simp [hk] <;> exact ih hnd.2 h

theorem noNull_del_none : ∀ (fs : List (String × JVal)), arrFreeF fs = true →
    noNullF (del_none fs) = true
  | [], _ => by simp [noNullF]
  | (k, v) :: rest, h => by
      have hsplit : arrFreeV v = true ∧ arrFreeF rest = true := by
        rw [arrFreeF] at h
        simpa using h
      have hrest := noNull_del_none rest hsplit.2
      cases v with
      | null => simpa using hrest
      | str s => simp [noNullF, noNullV, hrest]
      | num n => simp [noNullF, noNullV, hrest]
      | flt q => simp [noNullF, noNullV, hrest]
      | obj fs2 =>
          have h2 : arrFreeF fs2 = true := by
            rw [arrFreeV] at hsplit
            exact hsplit.1
          simp [noNullF, noNullV, noNull_del_none fs2 h2, hrest]
      | arr xs =>
          rw [arrFreeV] at hsplit
          simp at hsplit

theorem del_none_flat {fs : List (String × JVal)}
    (h : ∀ kv ∈ fs, flatVal kv.2 = true) : del_none fs = fs := by
  induction fs with
  | nil => simp
  | cons hd tl ih =>
      obtain ⟨k, v⟩ := hd
      have hv : flatVal v = true := h (k, v) (by simp)
      have htl := ih (fun kv hm => h kv (by simp [hm]))
      cases v <;> simp [flatVal] at hv ⊢ <;> exact htl

/-- The variants entry of every emitted blockstate descriptor is the
null-pruned _variants table; the surrounding record never loses it. -/
theorem variantFields_blockstate (parts : List String) (m : Option String)
    (textures : List (TexKey × String)) (variants : Option (List (String × JVal))) :
    variantFields (blockstate parts m textures variants) =
      some (del_none (blockVariants variants)) := by
  unfold blockstate variantFields rootFields
  cases m <;> simp

/-- C3: on an input mapping whose values are null markers, scalars or
nested mappings (no lists), null-pruning returns a mapping with zero null
values anywhere in its tree; every key bound to a non-null value is still
bound to that value, recursively pruned when it is a nested mapping; and a
mapping holding only non-mapping, non-null values is returned unchanged. -/
theorem c3_del_none_prunes (fields : List (String × JVal)) :
    (arrFreeF fields = true → noNullF (del_none fields) = true) ∧
    (∀ k v, getKey k fields = some v → v ≠ .null →
      getKey k (del_none fields) = some (delNoneVal v)) ∧
    ((∀ kv ∈ fields, flatVal kv.2 = true) → del_none fields = fields) :=
  ⟨noNull_del_none fields,
   fun _ _ h hv => getKey_del_none_of_some h hv,
   del_none_flat⟩

/-- Witness for c3_del_none_prunes on a concrete nested mapping with null
markers at two depths, and a concrete flat mapping. -/
theorem c3_del_none_prunes_witness :
    noNullF (del_none [("a", JVal.null),
      ("b", JVal.obj [("c", JVal.null), ("d", JVal.num 1)]), ("e", JVal.str "x")]) = true ∧
    getKey "b" (del_none [("a", JVal.null),
      ("b", JVal.obj [("c", JVal.null), ("d", JVal.num 1)]), ("e", JVal.str "x")]) =
      some (delNoneVal (JVal.obj [("c", JVal.null), ("d", JVal.num 1)])) ∧
    del_none [("e", JVal.str "x"), ("f", JVal.num 2)] = [("e", JVal.str "x"), ("f", JVal.num 2)] :=
  ⟨(c3_del_none_prunes _).1 (by simp [arrFreeF, arrFreeV]),
   (c3_del_none_prunes _).2.1 "b" _ (by simp) (by simp),
   (c3_del_none_prunes _).2.2 (by decide)⟩

/-- C4: a call whose explicit variant table maps normal to the null marker
produces a variants object with no normal key at all. -/
theorem c4_normal_disabled (parts : List String) (m : Option String)
    (textures : List (TexKey × String)) (table : List (String × JVal))
    (hnd : NodupKeys table) (h : getKey "normal" table = some .null) :
    ∃ fs, variantFields (blockstate parts m textures (some table)) = some fs ∧
      getKey "normal" fs = none ∧ "normal" ∉ keys fs := by
  have hne : table.isEmpty = false := by
    cases table with
    | nil => simp at h
    | cons a t => rfl
  have hbv : blockVariants (some table) =
      dictUpdate [("normal", .arr [.obj []])] table := by
    simp [blockVariants, hne]
  have hd0 : NodupKeys ([("normal", JVal.arr [.obj []])]) := by
    simp [NodupKeys, keys]
  have h1 : getKey "normal" (dictUpdate [("normal", JVal.arr [.obj []])] table) =
      some .null := getKey_dictUpdate_of_some hnd h
  have h2 := getKey_del_none_of_null (nodupKeys_dictUpdate hd0) h1
  refine ⟨_, variantFields_blockstate parts m textures (some table), ?_, ?_⟩
  · rw [hbv]
    exact h2
  · rw [hbv]
    exact getKey_eq_none_iff.mp h2

/-- Witness for c4_normal_disabled at the wall call of the driver, whose
table maps normal to the null marker. -/
theorem c4_normal_disabled_witness :
    NodupKeys WALL_VARIANTS ∧ getKey "normal" WALL_VARIANTS = some .null ∧
    ∃ fs, variantFields (blockstate ["wall", "cobble", "granite"] (some "tfc:empty")
        [(.group ["wall", "particle"], "tfc:blocks/stonetypes/cobble/granite")]
        (some WALL_VARIANTS)) = some fs ∧
      getKey "normal" fs = none ∧ "normal" ∉ keys fs :=
  ⟨by decide, by rfl,
   c4_normal_disabled _ _ _ _ (by decide) (by rfl)⟩

/-- C1 is refuted: the sapling call of the driver passes a non-empty
variant table holding only an inventory entry, yet the emitted variants
object is not that table: dict.update merges over the default, so the
default normal entry is still present. -/
theorem c1_counterexample :
    getKey "normal" SAPLING_VARIANTS = none ∧
    variantFields (blockstate ["wood", "sapling", "oak"] (some "cross")
      [(.group ["cross", "layer0"], "tfc:blocks/saplings/oak")] (some SAPLING_VARIANTS)) =
      some [("normal", .arr [.obj []]),
            ("inventory", .obj [("model", .str "builtin/generated"),
                                ("transform", .str "forge:default-item")])] := by
  refine ⟨rfl, ?_⟩
  rw [variantFields_blockstate]
  rw [show blockVariants (some SAPLING_VARIANTS) =
    [("normal", .arr [.obj []]),
     ("inventory", .obj [("model", .str "builtin/generated"),
                         ("transform", .str "forge:default-item")])] from rfl]
  simp

/-- C1 (amended): a non-empty explicit variant table (with unique keys, as
any Python dict) is merged over the default by dict.update rather than
replacing it: every caller key keeps its value (null-pruned), caller keys
mapped to the null marker are absent from the output, and the default
normal entry (a one-element list holding an empty dict) remains exactly
when the caller table has no normal key of its own. -/
theorem c1_variants_merge (parts : List String) (m : Option String)
    (textures : List (TexKey × String)) (table : List (String × JVal))
    (hne : table ≠ []) (hnd : NodupKeys table) :
    ∃ fs, variantFields (blockstate parts m textures (some table)) = some fs ∧
      (∀ k v, getKey k table = some v → v ≠ .null → getKey k fs = some (delNoneVal v)) ∧
      (∀ k, getKey k table = some .null → getKey k fs = none) ∧
      (getKey "normal" table = none → getKey "normal" fs = some (.arr [.obj []])) := by
  have hne' : table.isEmpty = false := by
    cases table with
    | nil => exact absurd rfl hne
    | cons a t => rfl
  have hbv : blockVariants (some table) =
      dictUpdate [("normal", .arr [.obj []])] table := by
    simp [blockVariants, hne']
  have hd0 : NodupKeys ([("normal", JVal.arr [.obj []])]) := by
    simp [NodupKeys, keys]
  refine ⟨_, variantFields_blockstate parts m textures (some table), ?_, ?_, ?_⟩
  · intro k v hk hv
    rw [hbv]
    exact getKey_del_none_of_some (getKey_dictUpdate_of_some hnd hk) hv
  · intro k hk
    rw [hbv]
    exact getKey_del_none_of_null (nodupKeys_dictUpdate hd0)
      (getKey_dictUpdate_of_some hnd hk)
  · intro hk
    rw [hbv]
    have h1 : getKey "normal" (dictUpdate [("normal", JVal.arr [.obj []])] table) =
        some (.arr [.obj []]) := by
      rw [getKey_dictUpdate_of_none hk]
      rfl
    have := getKey_del_none_of_some h1 (by simp)
    simpa using this

/-- Witness for c1_variants_merge at the sapling call of the driver. -/
theorem c1_variants_merge_witness :
    (SAPLING_VARIANTS ≠ [] ∧ NodupKeys SAPLING_VARIANTS) ∧
    ∃ fs, variantFields (blockstate ["wood", "sapling", "oak"] (some "cross")
        [(.group ["cross", "layer0"], "tfc:blocks/saplings/oak")]
        (some SAPLING_VARIANTS)) = some fs ∧
      (∀ k v, getKey k SAPLING_VARIANTS = some v → v ≠ .null →
        getKey k fs = some (delNoneVal v)) ∧
      (∀ k, getKey k SAPLING_VARIANTS = some .null → getKey k fs = none) ∧
      (getKey "normal" SAPLING_VARIANTS = none →
        getKey "normal" fs = some (.arr [.obj []])) :=
  ⟨⟨by simp [SAPLING_VARIANTS], by decide⟩,
   c1_variants_merge _ _ _ _ (by simp [SAPLING_VARIANTS]) (by decide)⟩

/-- C2 is refuted in one detail: with no explicit variant table the single
normal entry is not the empty override object, it is a one-element list
holding the empty override object (the source default is normal: [{}]),
shown here at the granite raw full-block emission. -/
theorem c2_counterexample :
    variantFields (cube_all ["raw", "granite"] "tfc:blocks/stonetypes/raw/granite"
      none "cube_all") = some [("normal", .arr [.obj []])] ∧
    (JVal.arr [.obj []]) ≠ (JVal.obj []) := by
  constructor
  · unfold cube_all
    rw [variantFields_blockstate]
    rw [show blockVariants none = [("normal", .arr [.obj []])] from rfl]
    simp
  · intro h
    exact JVal.noConfusion h

/-- C2 (amended): with no explicit variant table the emitted variants
object has exactly one entry, keyed normal, whose value is a one-element
list holding the empty override object; the granite raw full-block
emission writes blockstates/raw/granite.json with the templated texture on
the all slot and exactly that variants object, and this emission occurs in
the run. -/
theorem c2_default_normal (parts : List String) (m : Option String)
    (textures : List (TexKey × String)) :
    variantFields (blockstate parts m textures none) =
      some [("normal", .arr [.obj []])] ∧
    cube_all ["raw", "granite"] "tfc:blocks/stonetypes/raw/granite" none "cube_all" =
      ("blockstates/raw/granite.json",
       .obj [("__comment", .str "Generated by generateResources.py function: blockstate"),
             ("forge_marker", .num 1),
             ("defaults", .obj [("model", .str "cube_all"),
               ("textures", .obj [("all", .str "tfc:blocks/stonetypes/raw/granite")])]),
             ("variants", .obj [("normal", .arr [.obj []])])]) ∧
    cube_all_call ["raw", "granite"] "tfc:blocks/stonetypes/raw/granite" none "cube_all"
      ∈ allCalls STEEL := by
  refine ⟨?_, ?_, ?_⟩
  · rw [variantFields_blockstate]
    rw [show blockVariants none = [("normal", .arr [.obj []])] from rfl]
    simp
  · unfold cube_all blockstate
    simp [blockVariants, expandTextures, texStep, dictSet, joinPath]
    rfl
  · have h1 : cube_all_call ["raw", "granite"] "tfc:blocks/stonetypes/raw/granite"
        none "cube_all" ∈ rockCalls := by
      unfold rockCalls
      refine List.mem_flatMap.mpr ⟨"granite", by decide, ?_⟩
      simp only [List.mem_append, List.mem_map]
      exact Or.inl (Or.inl (Or.inl (Or.inl (Or.inl (Or.inl ⟨"raw", by decide, rfl⟩)))))
    simp only [allCalls, callsA, List.append_assoc, List.mem_append]
    tauto

/-- C6: an item emission with zero texture layers writes a descriptor with
no textures field at all; with layers it writes a textures mapping with
exactly one entry per layer, keyed layer0, layer1, ... in the positional
order of the supplied layers; and the output path always carries the fixed
item segment right after the models root. -/
theorem c6_item_layers (parts layers : List String) (parent : String) :
    (item parts layers parent).1 = joinPath ("models" :: "item" :: parts) ++ ".json" ∧
    (layers = [] → getKey "textures" (rootFields (item parts layers parent)) = none) ∧
    (layers ≠ [] →
      getKey "textures" (rootFields (item parts layers parent)) =
        some (.obj (layerEntries layers)) ∧
      (layerEntries layers).length = layers.length ∧
      (∀ (i : Nat) (v : String), layers[i]? = some v →
        (layerEntries layers)[i]? = some ("layer" ++ toString i, JVal.str v))) := by
  refine ⟨rfl, ?_, ?_⟩
  · rintro rfl
    simp [item, model, rootFields]
  · intro hne
    have hne' : layers.isEmpty = false := by
      cases layers with
      | nil => exact absurd rfl hne
      | cons a t => rfl
    have hflat : del_none (layerEntries layers) = layerEntries layers := by
      apply del_none_flat
      intro kv hm
      rcases List.mem_map.mp hm with ⟨iv, _, rfl⟩
      rfl
    refine ⟨?_, by simp [layerEntries, List.enum_length], ?_⟩
    · simp [item, model, rootFields, hne', hflat]
    · intro i v hv
      simp [layerEntries, List.getElem?_map, List.getElem?_enum, hv]

/-- Witness for c6_item_layers at the glazed vessel call of the driver
(two layers) and at a zero-layer call. -/
theorem c6_item_layers_witness :
    (item ["ceramics", "unfired", "vessel_glazed"]
      ["tfc:items/ceramics/unfired/vessel", "tfc:items/ceramics/fired/vessel_overlay"]
      "item/generated").1 = "models/item/ceramics/unfired/vessel_glazed.json" ∧
    getKey "textures" (rootFields (item ["ceramics", "unfired", "vessel_glazed"]
      ["tfc:items/ceramics/unfired/vessel", "tfc:items/ceramics/fired/vessel_overlay"]
      "item/generated")) =
      some (.obj [("layer0", .str "tfc:items/ceramics/unfired/vessel"),
                  ("layer1", .str "tfc:items/ceramics/fired/vessel_overlay")]) ∧
    getKey "textures" (rootFields (item ["example"] [] "item/generated")) = none :=
  ⟨((c6_item_layers ["ceramics", "unfired", "vessel_glazed"]
      ["tfc:items/ceramics/unfired/vessel", "tfc:items/ceramics/fired/vessel_overlay"]
      "item/generated").1).trans (by rfl),
   (((c6_item_layers _ _ _).2.2 (by simp)).1).trans (by rfl),
   (c6_item_layers _ _ _).2.1 rfl⟩

theorem foldl_dictSet_group {v : String} (ks : List String) :
    ∀ acc, (keys (acc ++ ks.map (fun x => (x, v)))).Nodup →
    ks.foldl (fun a x => dictSet a x v) acc = acc ++ ks.map (fun x => (x, v)) := by
  induction ks with
  | nil => intro acc _; simp
  | cons x ks ih =>
      intro acc h
      have hsplit := List.nodup_append.mp (by simpa using h :
        ((keys acc) ++ x :: keys (ks.map (fun y => (y, v)))).Nodup)
      have hx : x ∉ keys acc := fun hc => hsplit.2.2 hc (by simp)
      rw [List.map_cons, List.foldl_cons, dictSet_of_not_mem hx]
      have hih := ih (acc ++ [(x, v)]) (by simpa using h)
      rw [hih]
      simp

theorem expandTextures_eq_flatMap (textures : List (TexKey × String)) :
    ∀ acc, (keys (acc ++ textures.flatMap expandOne)).Nodup →
    textures.foldl texStep acc = acc ++ textures.flatMap expandOne := by
  induction textures with
  | nil => intro acc _; simp
  | cons hd tl ih =>
      obtain ⟨tk, v⟩ := hd
      intro acc h
      rw [List.foldl_cons]
      cases tk with
      | single k =>
          rw [List.flatMap_cons] at h ⊢
          rw [show expandOne (TexKey.single k, v) = [(k, v)] from rfl] at h ⊢
          have hsplit := List.nodup_append.mp (by simpa using h :
            ((keys acc) ++ k :: keys (tl.flatMap expandOne)).Nodup)
          have hk : k ∉ keys acc := fun hc => hsplit.2.2 hc (by simp)
          rw [show texStep acc (TexKey.single k, v) = dictSet acc k v from rfl,
            dictSet_of_not_mem hk]
          have hih := ih (acc ++ [(k, v)]) (by simpa using h)
          rw [hih]
          simp
      | group ks =>
          rw [List.flatMap_cons] at h ⊢
          rw [show expandOne (TexKey.group ks, v) = ks.map (fun x => (x, v)) from rfl] at h ⊢
          have hn : (keys (acc ++ ks.map (fun x => (x, v)))).Nodup := by
            refine List.Nodup.sublist ?_ (by simpa using h :
              ((keys (acc ++ ks.map (fun x => (x, v)))) ++
                keys (tl.flatMap expandOne)).Nodup)
            exact List.sublist_append_left _ _
          rw [show texStep acc (TexKey.group ks, v) =
            ks.foldl (fun a x => dictSet a x v) acc from rfl]
          rw [foldl_dictSet_group ks acc hn]
          have hih := ih (acc ++ ks.map (fun x => (x, v))) (by simpa using h)
          rw [hih]
          simp

/-- C5: when the slot names produced by expanding every texture key are
pairwise distinct (as in a well-formed texture table), the built texture
mapping is exactly the in-order expansion: each tuple key of N slots
becomes its N slot-to-value entries (each slot bound to the shared value),
each plain string key is carried over unchanged, no tuple-keyed entry
remains (the result is keyed by plain slot names only), and the total
entry count is the sum of the per-key expansion sizes. The final conjunct
covers the one driver call whose expanded slots repeat (the grass call,
where the particle slot is assigned twice with the same value): each slot
of its tuple keys still ends bound to the value shared by its group. -/
theorem c5_texture_groups (textures : List (TexKey × String))
    (h : (keys (textures.flatMap expandOne)).Nodup) :
    expandTextures textures = textures.flatMap expandOne ∧
    (∀ ks v, (TexKey.group ks, v) ∈ textures → ∀ x ∈ ks,
      getKey x (expandTextures textures) = some v) ∧
    (∀ k v, (TexKey.single k, v) ∈ textures → getKey k (expandTextures textures) = some v) ∧
    (expandTextures textures).length =
      (textures.map (fun kv => (expandOne kv).length)).sum ∧
    (∀ dirt top side : String,
      expandTextures [(.group ["all", "particle"], dirt), (.single "particle", dirt),
        (.single "top", top), (.group ["north", "south", "east", "west"], side)] =
      [("all", dirt), ("particle", dirt), ("top", top), ("north", side),
       ("south", side), ("east", side), ("west", side)]) := by
  have heq : expandTextures textures = textures.flatMap expandOne := by
    have := expandTextures_eq_flatMap textures [] (by simpa using h)
    simpa [expandTextures] using this
  refine ⟨heq, ?_, ?_, ?_, ?_⟩
  · intro ks v hm x hx
    rw [heq]
    refine getKey_of_mem_nodup (List.mem_flatMap.mpr ⟨(TexKey.group ks, v), hm, ?_⟩) h
    rw [show expandOne (TexKey.group ks, v) = ks.map (fun y => (y, v)) from rfl]
    exact List.mem_map_of_mem _ hx
  · intro k v hm
    rw [heq]
    exact getKey_of_mem_nodup
      (List.mem_flatMap.mpr ⟨(TexKey.single k, v), hm, by simp [expandOne]⟩) h
  · rw [heq, List.length_flatMap]
    rfl
  · intro dirt top side
    rfl

/-- Witness for c5_texture_groups at the ore-call texture table of the
driver: a two-slot tuple key plus a plain key. -/
theorem c5_texture_groups_witness :
    expandTextures
      [(TexKey.group ["all", "particle"], "tfc:blocks/stonetypes/raw/granite"),
       (TexKey.single "overlay", "tfc:blocks/ores/native_copper")] =
      [("all", "tfc:blocks/stonetypes/raw/granite"),
       ("particle", "tfc:blocks/stonetypes/raw/granite"),
       ("overlay", "tfc:blocks/ores/native_copper")] ∧
    getKey "particle" (expandTextures
      [(TexKey.group ["all", "particle"], "tfc:blocks/stonetypes/raw/granite"),
       (TexKey.single "overlay", "tfc:blocks/ores/native_copper")]) =
      some "tfc:blocks/stonetypes/raw/granite" :=
  ⟨((c5_texture_groups _ (by decide)).1).trans (by rfl),
   (c5_texture_groups _ (by decide)).2.1 ["all", "particle"] _ (by decide) "particle"
     (by decide)⟩

/-- C7: every file any emission call writes (blockstate or item, hence
every file of the run) has a root object whose first-field provenance
marker __comment survives null-pruning and names the generating function
of this script. -/
theorem c7_provenance_marker (c : Call) :
    ∃ fs, (exec c).2 = .obj fs ∧
      (getKey "__comment" fs =
        some (.str "Generated by generateResources.py function: blockstate") ∨
       getKey "__comment" fs =
        some (.str "Generated by generateResources.py function: model")) := by
  cases c with
  | bs parts m t v =>
      refine ⟨_, rfl, Or.inl ?_⟩
      simp [exec, blockstate]
  | it parts ls p =>
      refine ⟨_, rfl, Or.inr ?_⟩
      simp [exec, item, model]

/-- C8: in every run, the events before the first descriptor write are
exactly the backup prelude: the archive-root creation together with its
ignore-everything marker happens iff the root did not exist, the archive
of the current output tree (named by seconds-since-epoch inside the
archive root) is among those prelude events, and everything after the
prelude is a descriptor write — so no descriptor emission ever precedes
the archival step. -/
theorem c8_archive_before_writes (b : Bool) (t : Nat) (prev : Tree)
    (steel : List String) :
    ∃ pre post, run b t prev steel = pre ++ post ∧
      (∀ e ∈ pre, ∀ p v, e ≠ Event.write p v) ∧
      Event.archive ("assets_backups/" ++ toString t ++ ".zip") prev ∈ pre ∧
      ((Event.mkdirBackups ∈ run b t prev steel) ↔ b = false) ∧
      ((Event.writeGitignoreAll ∈ run b t prev steel) ↔ b = false) ∧
      (∀ e ∈ post, ∃ p v, e = Event.write p v) := by
  refine ⟨(if b then [] else [.mkdirBackups, .writeGitignoreAll]) ++
      [.archive ("assets_backups/" ++ toString t ++ ".zip") prev, .chdirAssets],
    (allCalls steel).map (fun c => .write (exec c).1 (exec c).2),
    by simp [run], ?_, ?_, ?_, ?_, ?_⟩
  · intro e he p v
    rcases List.mem_append.mp he with h1 | h1
    · cases b <;> simp at h1
      rcases h1 with rfl | rfl <;> simp
    · simp at h1
      rcases h1 with rfl | rfl <;> simp
  · simp
  · cases b <;> simp [run]
  · cases b <;> simp [run]
  · intro e he
    rcases List.mem_map.mp he with ⟨c, _, rfl⟩
    exact ⟨_, _, rfl⟩

/-- Looking a key up in an association list with unique keys is invariant
under permutation of the list. -/
theorem getKey_perm {α : Type} {l1 l2 : List (String × α)} (p : l1.Perm l2) :
    NodupKeys l2 → ∀ k, getKey k l1 = getKey k l2 := by
  induction p with
  | nil => intro _ _; rfl
  | cons a p ih =>
      intro nd k
      obtain ⟨ka, va⟩ := a
      have hnd := nd
      simp only [NodupKeys, keys, List.map_cons, List.nodup_cons] at hnd
      by_cases hk : ka = k
      · simp [hk]
      · simp [hk, ih hnd.2 k]
  | swap x y l =>
      intro nd k
      obtain ⟨kx, vx⟩ := x
      obtain ⟨ky, vy⟩ := y
      have hne : ¬ kx = ky := by
        have h := nd
        simp [NodupKeys, keys] at h
        tauto
      by_cases h1 : kx = k <;> by_cases h2 : ky = k
      · exact absurd (h1.trans h2.symm) hne
      · simp [h1, h2]
      · simp [h1, h2]
      · simp [h1, h2]
  | trans p1 p2 ih1 ih2 =>
      intro nd k
      have nd2 : NodupKeys _ := (List.Perm.nodup_iff (p2.map Prod.fst)).mpr nd
      exact (ih1 nd2 k).trans (ih2 nd k)

theorem steelIngot_perm {o : List String} (ho : o.Perm STEEL) :
    (((steelIngotItemCalls o).map exec).reverse).Perm
      (((steelIngotItemCalls STEEL).map exec).reverse) := by
  have p0 : (steelIngotItemCalls o).Perm (steelIngotItemCalls STEEL) :=
    List.Perm.flatMap_right _ ho
  exact (List.reverse_perm _).trans ((p0.map exec).trans (List.reverse_perm _).symm)

theorem steelMold_perm {o : List String} (ho : o.Perm STEEL) :
    (((steelMoldIngotCalls o).map exec).reverse).Perm
      (((steelMoldIngotCalls STEEL).map exec).reverse) := by
  have p0 : (steelMoldIngotCalls o).Perm (steelMoldIngotCalls STEEL) :=
    List.Perm.flatMap_right _ ho
  exact (List.reverse_perm _).trans ((p0.map exec).trans (List.reverse_perm _).symm)

theorem filterMap_write (l : List Call) :
    List.filterMap ((fun e => match e with | Event.write p v => some (p, v) | _ => none) ∘
      (fun c => Event.write (exec c).1 (exec c).2)) l = l.map exec := by
  induction l with
  | nil => rfl
  | cons c l ih => simp [List.filterMap_cons, Function.comp, ih]

/-- The descriptor files of a run are exactly the executed driver calls,
independent of the archival parameters. -/
theorem writesOf_run (b : Bool) (t : Nat) (prev : Tree) (steel : List String) :
    writesOf (run b t prev steel) = (allCalls steel).map exec := by
  cases b <;>
    simp [run, writesOf, List.filterMap_append, List.filterMap_map, filterMap_write]

/-- Final file contents produced by the driver do not depend on the STEEL
iteration order: within each of the two STEEL loops the written paths are
pairwise distinct, so permuting the loop order permutes writes to distinct
files only. -/
theorem lastContent_allCalls (o : List String) (ho : o.Perm STEEL) (p : String) :
    lastContent p ((allCalls o).map exec) = lastContent p ((allCalls STEEL).map exec) := by
  have h1 : getKey p (((steelIngotItemCalls o).map exec).reverse) =
      getKey p (((steelIngotItemCalls STEEL).map exec).reverse) :=
    getKey_perm (steelIngot_perm ho) (by decide) p
  have h2 : getKey p (((steelMoldIngotCalls o).map exec).reverse) =
      getKey p (((steelMoldIngotCalls STEEL).map exec).reverse) :=
    getKey_perm (steelMold_perm ho) (by decide) p
  unfold lastContent allCalls
  simp only [List.map_append, List.reverse_append, getKey_append]
  rw [h1, h2]

/-- C9: two runs over the same enumeration tables produce identical output
trees file for file and byte for byte, whatever the timestamps, previous
tree contents, backup-root states and STEEL iteration orders of the two
runs, for every serialization of the descriptor values; only the
timestamp-named archive (not a descriptor write) differs. -/
theorem c9_two_run_determinism (b1 b2 : Bool) (t1 t2 : Nat) (prev1 prev2 : Tree)
    (o1 o2 : List String) (h1 : o1.Perm STEEL) (h2 : o2.Perm STEEL)
    (serialize : JVal → String) (p : String) :
    (lastContent p (writesOf (run b1 t1 prev1 o1))).map serialize =
    (lastContent p (writesOf (run b2 t2 prev2 o2))).map serialize := by
  rw [writesOf_run, writesOf_run, lastContent_allCalls o1 h1, lastContent_allCalls o2 h2]

/-- Witness for c9_two_run_determinism: two runs with different
timestamps, different backup-root states, different previous trees and
different STEEL orders agree at a steel-dependent path. -/
theorem c9_two_run_determinism_witness :
    (["blue_steel", "steel", "red_steel", "black_steel"].Perm STEEL) ∧
    (lastContent "models/item/metal/ingot/high_carbon_steel.json"
      (writesOf (run true 11 []
        ["blue_steel", "steel", "red_steel", "black_steel"]))).map serializeConst =
    (lastContent "models/item/metal/ingot/high_carbon_steel.json"
      (writesOf (run false 22 [("old.json", "old")] STEEL))).map serializeConst :=
  ⟨by decide,
   c9_two_run_determinism true false 11 22 [] [("old.json", "old")]
     ["blue_steel", "steel", "red_steel", "black_steel"] STEEL
     (by decide) (List.Perm.refl STEEL) serializeConst
     "models/item/metal/ingot/high_carbon_steel.json"⟩

/-- C10: del_none returns the very same top-level mapping object it was
given (the returned reference equals the argument, for any heap and any
fuel), and it descends only into values that are themselves mappings: on
the concrete example heap, the null directly under the root and the null
inside the dict-valued entry are deleted, while the list value is kept
byte-identical (its own null element included) and the dict stored inside
that list is never visited, so its null entry survives. -/
theorem c10_del_none_in_place :
    (∀ (fuel : Nat) (h : Heap) (a : Nat), (del_none_ref fuel h a).2 = a) ∧
    (del_none_ref 9 exampleHeap 0).1 0 =
      [("inventory", .list [.ref 1, .null]), ("nested", .ref 2)] ∧
    (del_none_ref 9 exampleHeap 0).1 1 =
      [("model", .str "button_inventory"), ("dead", .null)] ∧
    (del_none_ref 9 exampleHeap 0).1 2 = [("keep", .intv 90)] :=
  ⟨fun _ _ _ => rfl, rfl, rfl, rfl⟩

end GenRes
